import Mathlib

/-!
Shallow embedding of `src/VolETPs_CorrSignals/main.py` (class
`VolETPsCorrSignals`): the hourly correlation-series lookup
(`_get_cor_value_hourly`), the regime classifier (`_update_regime`), the
execution state machine (`_execute_trades`) and the per-tick driver
(`on_data`).

Conventions of the embedding:
* Python floats are modelled as exact rationals (`ℚ`).
* The source computes `spread_std = variance ** 0.5` (a square root) and only
  ever compares `c * spread_std` against other quantities, with
  `spread_std > 0` throughout.  Those comparisons are embedded exactly by
  squaring: for `a ≥ 0`, `a > c·√v  ↔  a^2 > c^2·v`; the state stores the
  squared standard deviation (`variance`, or `(0.01)^2 = 1/10000` when the
  variance is zero, mirroring the `0.01` floor).
* Python `None` becomes `Option.none`; an uncaught `TypeError`
  (`None - float`) is modelled by the driver returning `none`.
* Timestamps: a calendar date is a `ℤ` (day number), an hour a `ℕ` in
  `0..23`; `datetime.date - timedelta(days=k)` is integer subtraction.
-/

set_option maxRecDepth 100000

namespace VolETPs

/-- Regime labels: REGIME_SAFE / REGIME_NEUTRAL / REGIME_DANGER (main.py lines 8-10). -/
inductive Regime
  | SAFE
  | NEUTRAL
  | DANGER
deriving DecidableEq, Repr

/-- Event emitted by `_update_regime`: either the shock debug line (line 403)
or the regime-transition audit record `old → new` (lines 433-436). -/
inductive RegimeEvent
  | shock
  | transition (old new : Regime)
deriving DecidableEq, Repr

/-- Exit reasons of `_execute_trades` (lines 511, 515, 522). -/
inductive ExitReason
  | REGIME_REVOKED
  | SIGNAL_NORMALIZED
  | STOP_HIT
deriving DecidableEq, Repr

/-- Event emitted by `_execute_trades`: entry (with the target weight passed to
`set_holdings`), blocked-entry audit record, or exit with its reason. -/
inductive ExecEvent
  | enter (weight : ℚ)
  | blocked
  | exited (reason : ExitReason)
deriving DecidableEq, Repr

/-- The mutable attributes of `VolETPsCorrSignals` that the per-tick pipeline
touches, as set up in `initialize` (lines 57-105).  `spreadStats` packages
`spread_ma`/`spread_std` (both `None` until first computed, and always set
together at lines 395-397); the std is stored squared (see file header). -/
structure AlgoState where
  spreadHistory : List ℚ
  regimeCurrent : Regime
  regimePrevious : Regime
  regimeBarCount : ℕ
  spreadStats : Option (ℚ × ℚ)
  isShort : Bool
  entryPrice : ℚ
  entryBarCount : ℕ
  barsSinceExit : ℕ
  entrySpread : ℚ
  barsSinceEntry : ℕ
  tradeCount : ℕ
  entryTime : Option ℕ
  vxxAtrEstimate : ℚ
  lastSummaryDate : Option ℤ
  blockedEntryCount : ℕ
  dailyEntryCount : ℕ
  dailyExitCount : ℕ
  lastMissingCorWarningDate : Option ℤ
  regimeBarCounts : ℕ × ℕ × ℕ
deriving DecidableEq, Repr

/-- Structural parameters of the regime layer: `SPREAD_MA_WINDOW` and
`REGIME_PERSISTENCE_BARS` (lines 59-60). -/
structure RegimeConfig where
  window : ℕ
  persistence : ℕ
deriving DecidableEq, Repr

/-- The constants hard-coded in `initialize`: window 20, persistence 2. -/
def codeConfig : RegimeConfig := ⟨20, 2⟩

/-- `SHOCK_THRESHOLD_MULT = 2.5` (line 61), stored squared: `2.5^2 = 25/4`. -/
def SHOCK_THRESHOLD_MULT_SQ : ℚ := 25 / 4

/-- `COOLDOWN_BARS = 2` (line 75). -/
def COOLDOWN_BARS : ℕ := 2

/-- `POSITION_SIZE = 0.50` (line 80). -/
def POSITION_SIZE : ℚ := 1 / 2

/-- `STOP_LOSS_MULT = 2.0` (line 81). -/
def STOP_LOSS_MULT : ℚ := 2

/-- `EXIT_MEAN_REVERT_THRESHOLD = 0.5` (line 82), stored squared: `1/4`. -/
def EXIT_MEAN_REVERT_THRESHOLD_SQ : ℚ := 1 / 4

/-- The state right after `initialize`: empty history, NEUTRAL/NEUTRAL/0,
stats `None`, position closed, `bars_since_exit = 0`, ATR estimate `1.0`. -/
def initialState : AlgoState where
  spreadHistory := []
  regimeCurrent := Regime.NEUTRAL
  regimePrevious := Regime.NEUTRAL
  regimeBarCount := 0
  spreadStats := none
  isShort := false
  entryPrice := 0
  entryBarCount := 0
  barsSinceExit := 0
  entrySpread := 0
  barsSinceEntry := 0
  tradeCount := 0
  entryTime := none
  vxxAtrEstimate := 1
  lastSummaryDate := none
  blockedEntryCount := 0
  dailyEntryCount := 0
  dailyExitCount := 0
  lastMissingCorWarningDate := none
  regimeBarCounts := (0, 0, 0)

/-- Lines 384-387 of `_update_regime`: append the new spread to
`spread_history` and `pop(0)` once the length exceeds `SPREAD_MA_WINDOW + 5`. -/
def postHist (cfg : RegimeConfig) (spread : ℚ) (s : AlgoState) : List ℚ :=
  let h0 := s.spreadHistory ++ [spread]
  if cfg.window + 5 < h0.length then h0.tail else h0

/-- Lines 389-397 of `_update_regime`: `None` while fewer than `window`
samples, otherwise the rolling mean and (squared) floored standard deviation
over exactly the last `window` samples, with population variance
(`/ len(recent)`).  `variance ** 0.5 if variance > 0 else 0.01` becomes, in
squared form, `variance` when positive and `(1/100)^2 = 0.01^2` otherwise. -/
def rollingStats (w : ℕ) (l : List ℚ) : Option (ℚ × ℚ) :=
  if l.length < w then none
  else
    let recent := l.drop (l.length - w)
    let ma := recent.sum / (recent.length : ℚ)
    let variance := (recent.map (fun x => (x - ma) ^ 2)).sum / (recent.length : ℚ)
    some (ma, if 0 < variance then variance else (1 / 100) ^ 2)

/-- Lines 400-402: shock detection.  `last_change = |spread - history[-2]|`
compared against `spread_std * 2.5` (with the source's extra
`spread_std > 0` conjunct) — squared:
`last_change^2 > stdSq · (25/4)` and `stdSq > 0`. -/
def shockCond (spread : ℚ) (hist : List ℚ) (stdSq : ℚ) : Prop :=
  2 ≤ hist.length ∧
    stdSq * SHOCK_THRESHOLD_MULT_SQ < (spread - hist.getD (hist.length - 2) 0) ^ 2 ∧
    0 < stdSq

instance (spread : ℚ) (hist : List ℚ) (stdSq : ℚ) :
    Decidable (shockCond spread hist stdSq) := by
  unfold shockCond; infer_instance

/-- Lines 408-422: candidate selection from `distance_from_ma = spread - ma`.
`distance < -std ↦ SAFE`, `distance > std ↦ DANGER`, else NEUTRAL — squared:
sign of the distance plus `distance^2 > stdSq` (valid since `std > 0`). -/
def regimeCandidate (spread ma stdSq : ℚ) : Regime :=
  let d := spread - ma
  if d < 0 ∧ stdSq < d ^ 2 then Regime.SAFE
  else if 0 < d ∧ stdSq < d ^ 2 then Regime.DANGER
  else Regime.NEUTRAL

/-- `_update_regime` (lines 376-439): history update, rolling stats, shock
override, candidate selection, persistence rule and commit.  Returns the new
state plus the emitted event, if any. -/
def updateRegime (cfg : RegimeConfig) (spread : ℚ) (s : AlgoState) :
    AlgoState × Option RegimeEvent :=
  match rollingStats cfg.window (postHist cfg spread s) with
  | none => ({ s with spreadHistory := postHist cfg spread s }, none)
  | some (ma, stdSq) =>
    if shockCond spread (postHist cfg spread s) stdSq then
      ({ s with spreadHistory := postHist cfg spread s, spreadStats := some (ma, stdSq),
                regimeCurrent := Regime.DANGER, regimeBarCount := 1 },
        some RegimeEvent.shock)
    else
      let candidate := regimeCandidate spread ma stdSq
      let newCount := if candidate = s.regimeCurrent then s.regimeBarCount + 1 else 1
      if cfg.persistence ≤ newCount ∧ candidate ≠ s.regimePrevious then
        ({ s with spreadHistory := postHist cfg spread s, spreadStats := some (ma, stdSq),
                  regimePrevious := s.regimeCurrent, regimeCurrent := candidate,
                  regimeBarCount := 0 },
          some (RegimeEvent.transition s.regimeCurrent candidate))
      else
        ({ s with spreadHistory := postHist cfg spread s, spreadStats := some (ma, stdSq),
                  regimeBarCount := newCount }, none)

/-- Feed a spread series tick-by-tick through `_update_regime`, collecting the
per-tick events in order. -/
def runRegime (cfg : RegimeConfig) (spreads : List ℚ) (s : AlgoState) :
    AlgoState × List (Option RegimeEvent) :=
  spreads.foldl
    (fun acc sp =>
      let r := updateRegime cfg sp acc.1
      (r.1, acc.2 ++ [r.2]))
    (s, [])

/-- `_execute_trades` (lines 441-548).  Returns `none` for the uncaught Python
`TypeError` raised by `spread_distance = self.spread_ma - spread` (line 455)
when `spread_ma` is still `None`; otherwise the updated state and the emitted
event.  `cooldown_remaining = max(0, COOLDOWN_BARS - bars_since_exit)` is `ℕ`
truncated subtraction.  The entry's target weight is `-POSITION_SIZE`
(line 466); the signal-strength and mean-revert comparisons are the squared
encodings of `> 1.0·std` and `< 0.5·std`. -/
def executeTrades (spread vxxPrice : ℚ) (time : ℕ) (s : AlgoState) :
    Option (AlgoState × Option ExecEvent) :=
  match s.spreadStats with
  | none => none
  | some (ma, stdSq) =>
    let spreadDistance := ma - spread
    let cooldownRemaining := COOLDOWN_BARS - s.barsSinceExit
    if s.isShort = false then
      if (s.regimeCurrent = Regime.SAFE ∧
            (0 < spreadDistance ∧ stdSq < spreadDistance ^ 2) ∧
            cooldownRemaining = 0) then
        some ({ s with isShort := true, entryPrice := vxxPrice, entrySpread := spread,
                       entryBarCount := 0, barsSinceEntry := 1, entryTime := some time,
                       tradeCount := s.tradeCount + 1,
                       dailyEntryCount := s.dailyEntryCount + 1 },
              some (ExecEvent.enter (-POSITION_SIZE)))
      else if 0 < spreadDistance ∧ stdSq < spreadDistance ^ 2 then
        some ({ s with blockedEntryCount := s.blockedEntryCount + 1 },
              some ExecEvent.blocked)
      else
        some (s, none)
    else
      let exitReason : Option ExitReason :=
        if s.regimeCurrent = Regime.DANGER then some ExitReason.REGIME_REVOKED
        else if (spread - ma) ^ 2 < stdSq * EXIT_MEAN_REVERT_THRESHOLD_SQ then
          some ExitReason.SIGNAL_NORMALIZED
        else if 0 < s.vxxAtrEstimate ∧
                 s.entryPrice + s.vxxAtrEstimate * STOP_LOSS_MULT < vxxPrice then
          some ExitReason.STOP_HIT
        else none
      match exitReason with
      | some r =>
        some ({ s with isShort := false, barsSinceExit := 0, entryBarCount := 0,
                       dailyExitCount := s.dailyExitCount + 1 },
              some (ExecEvent.exited r))
      | none => some (s, none)

/-- The event component of `_execute_trades`' outcome (none if the call raised
or emitted nothing). -/
def execEvent (spread vxxPrice : ℚ) (time : ℕ) (s : AlgoState) : Option ExecEvent :=
  (executeTrades spread vxxPrice time s).bind (fun p => p.2)

/-- Lines 294-311 of `on_data`: on the first tick of a new date, log the
previous day's summary, reset the daily counters and remember the date. -/
def dailySummaryUpdate (date : ℤ) (s : AlgoState) : AlgoState :=
  if s.lastSummaryDate ≠ some date then
    if s.lastSummaryDate ≠ none then
      { s with dailyEntryCount := 0, dailyExitCount := 0, blockedEntryCount := 0,
               regimeBarCounts := (0, 0, 0), lastSummaryDate := some date }
    else { s with lastSummaryDate := some date }
  else s

/-- Line 314 of `on_data`: bump the bar counter of the current regime
(`regimeBarCounts` stores the SAFE/NEUTRAL/DANGER counts as a triple). -/
def bumpRegimeBarCount (s : AlgoState) : AlgoState :=
  match s.regimeCurrent with
  | Regime.SAFE =>
    { s with regimeBarCounts :=
        (s.regimeBarCounts.1 + 1, s.regimeBarCounts.2.1, s.regimeBarCounts.2.2) }
  | Regime.NEUTRAL =>
    { s with regimeBarCounts :=
        (s.regimeBarCounts.1, s.regimeBarCounts.2.1 + 1, s.regimeBarCounts.2.2) }
  | Regime.DANGER =>
    { s with regimeBarCounts :=
        (s.regimeBarCounts.1, s.regimeBarCounts.2.1, s.regimeBarCounts.2.2 + 1) }

/-- STEP 3 of `on_data` (lines 325-328): `bars_since_entry += 1` once it is
`≥ 1`, and `bars_since_exit += 1` while below `COOLDOWN_BARS`. -/
def advanceCounters (s : AlgoState) : AlgoState :=
  let s1 :=
    if 1 ≤ s.barsSinceEntry then { s with barsSinceEntry := s.barsSinceEntry + 1 } else s
  if s1.barsSinceExit < COOLDOWN_BARS then
    { s1 with barsSinceExit := s1.barsSinceExit + 1 }
  else s1

/-- `on_data` (lines 259-328).  Inputs: the instrument price if the slice has
one (`None` also covers a missing key), the two already-resolved correlation
lookups, the tick's calendar date and time.  Returns `none` exactly when the
Python body would raise (the warm-up `TypeError` inside `_execute_trades`). -/
def onData (cfg : RegimeConfig) (priceOpt cor1 cor3 : Option ℚ) (date : ℤ)
    (time : ℕ) (s : AlgoState) : Option AlgoState :=
  match priceOpt with
  | none => some s
  | some price =>
    if price ≤ 0 then some s
    else
      match cor1, cor3 with
      | some c1, some c3 =>
        let s1 := dailySummaryUpdate date s
        let s2 := bumpRegimeBarCount s1
        let spread := c1 - c3
        let s3 := (updateRegime cfg spread s2).1
        match executeTrades spread price time s3 with
        | none => none
        | some (s4, _) => some (advanceCounters s4)
      | _, _ =>
        if s.lastMissingCorWarningDate ≠ some date then
          some { s with lastMissingCorWarningDate := some date }
        else some s

/-- A bar of a correlation series (`_load_csv_data`, lines 222-228); only the
close is read by the lookup. -/
structure OHLC where
  open_ : ℚ
  high : ℚ
  low : ℚ
  close : ℚ
deriving DecidableEq, Repr

/-- A correlation series: the `cor*_hourly_data` dict, keyed by
(date, hour-of-day) — the model of the on-the-hour ISO8601 keys. -/
abbrev CorSeries : Type := List ((ℤ × ℕ) × OHLC)

/-- Dict membership test / read on the modelled hourly dict. -/
def seriesFind (dict : CorSeries) (key : ℤ × ℕ) : Option OHLC :=
  (dict.find? (fun e => e.1 = key)).map (fun e => e.2)

/-- Lines 343-346 / 353-356: `for hour in range(23, -1, -1)` on a given date,
returning the first close found. -/
def findOnDay (dict : CorSeries) (d : ℤ) : Option ℚ :=
  (List.range 24).reverse.findSome? (fun h => (seriesFind dict (d, h)).map OHLC.close)

/-- `_get_cor_value_hourly` (lines 330-358): exact (date, hour) match, else
latest hour on the same date scanning 23 down to 0, else the latest hour of
each of the previous 10 days, else `None`. -/
def getCorValueHourly (dict : CorSeries) (currentDate : ℤ) (currentHour : ℕ) :
    Option ℚ :=
  match seriesFind dict (currentDate, currentHour) with
  | some o => some o.close
  | none =>
    match findOnDay dict currentDate with
    | some c => some c
    | none =>
      (List.range 10).findSome? (fun k => findOnDay dict (currentDate - (k + 1)))

/-! Concrete inputs used by counterexamples and witnesses. -/

/-- A series holding a single bar, at day 5 hour 15, with close `7`. -/
def lookaheadSeries : CorSeries := [((5, 15), ⟨1, 2, 0, 7⟩)]

/-- Spread series for the C3 counterexample: twenty flat ticks, then two
ticks at 1 (the first of which is a shock under the code's constants). -/
def c3Spreads : List ℚ := List.replicate 20 0 ++ [1, 1]

/-- A post-classifier state ready to enter: stats defined (`ma = 10`,
squared std `1`), regime SAFE, cooldown elapsed. -/
def demoEntry : AlgoState :=
  { initialState with spreadStats := some (10, 1), regimeCurrent := Regime.SAFE,
                      barsSinceExit := 2 }

/-- The state `_execute_trades` produces when `demoEntry` enters at spread 5,
price 30, time 0. -/
def demoEntryOut : AlgoState :=
  { demoEntry with isShort := true, entryPrice := 30, entrySpread := 5,
                   entryBarCount := 0, barsSinceEntry := 1, entryTime := some 0,
                   tradeCount := 1, dailyEntryCount := 1 }

/-- An open position (entry price 10) with stats `ma = 0`, squared std `4`:
at spread `1/2` and price `20` both the mean-revert and the stop conditions
hold simultaneously. -/
def demoOpen : AlgoState :=
  { initialState with spreadStats := some (0, 4), isShort := true, entryPrice := 10 }

/-- Three samples of history under window 4: appending spread `1` makes
`[0, 0, -1, 1]`, whose jump `|1 - (-1)| = 2` exceeds `2.5 · std`
(squared: `4 > (25/4) · (1/2)`). -/
def shockState : AlgoState := { initialState with spreadHistory := [0, 0, -1] }

/-- The classifier state after twenty flat ticks and one shock tick under the
code's constants: DANGER held with counter 1, previous regime NEUTRAL. -/
def c3PreState : AlgoState :=
  (runRegime codeConfig (List.replicate 20 0 ++ [1]) initialState).1

/-- The classifier state after the subsequent spread-1 tick (the no-op
DANGER → DANGER commit). -/
def c3PostState : AlgoState := (updateRegime codeConfig 1 c3PreState).1

/-! Theorems. -/

/-- C1: the claim that the correlation-series lookup never resolves to a
sample timestamped after the current tick is FALSE of the code: the same-day
fallback of `_get_cor_value_hourly` scans hours from 23 down to 0 without
bounding the scan by the current hour.  Here the series holds a single sample
at day 5, hour 15, and a lookup at day 5, hour 10 returns its close — data
from five hours in the future of the tick. -/
theorem c1_lookup_returns_future_sample :
    getCorValueHourly lookaheadSeries 5 10 = some 7 ∧
    ∀ e ∈ lookaheadSeries, e.1.1 = 5 ∧ 10 < e.1.2 := by with_unfolding_all decide

/-- C2 counterexample: with window 3 and persistence 2, the spread series
`[0,0,0,10,10]` does NOT commit DANGER at tick 5 — the committed regime after
the five ticks is still not DANGER (it is NEUTRAL; see `c2_scenario_trace`). -/
theorem c2_counterexample :
    (runRegime ⟨3, 2⟩ [0, 0, 0, 10, 10] initialState).1.regimeCurrent ≠
      Regime.DANGER := by with_unfolding_all decide

/-- C2 (amended): window 3, persistence 2, spreads `[0,0,0,10,10]`.  The
committed regime is NEUTRAL through tick 3; tick 4 starts DANGER-candidate
accumulation (the candidate under tick-4 stats `ma = 10/3`, squared std
`200/9` is DANGER and the consecutive counter resets to 1); but at tick 5 the
rolling mean has absorbed the spike (`ma = 20/3`, squared std `200/9`), the
candidate reverts to NEUTRAL, and no transition is ever committed: the regime
remains NEUTRAL after tick 5 with counter 2 and no emitted event. -/
theorem c2_scenario_trace :
    (runRegime ⟨3, 2⟩ [0] initialState).1.regimeCurrent = Regime.NEUTRAL ∧
    (runRegime ⟨3, 2⟩ [0, 0] initialState).1.regimeCurrent = Regime.NEUTRAL ∧
    (runRegime ⟨3, 2⟩ [0, 0, 0] initialState).1.regimeCurrent = Regime.NEUTRAL ∧
    (runRegime ⟨3, 2⟩ [0, 0, 0, 10] initialState).1.regimeCurrent = Regime.NEUTRAL ∧
    (runRegime ⟨3, 2⟩ [0, 0, 0, 10] initialState).1.regimeBarCount = 1 ∧
    (runRegime ⟨3, 2⟩ [0, 0, 0, 10] initialState).1.spreadStats =
      some (10 / 3, 200 / 9) ∧
    regimeCandidate 10 (10 / 3) (200 / 9) = Regime.DANGER ∧
    (runRegime ⟨3, 2⟩ [0, 0, 0, 10, 10] initialState).1.spreadStats =
      some (20 / 3, 200 / 9) ∧
    regimeCandidate 10 (20 / 3) (200 / 9) = Regime.NEUTRAL ∧
    (runRegime ⟨3, 2⟩ [0, 0, 0, 10, 10] initialState).1.regimeCurrent =
      Regime.NEUTRAL ∧
    (runRegime ⟨3, 2⟩ [0, 0, 0, 10, 10] initialState).1.regimeBarCount = 2 ∧
    (runRegime ⟨3, 2⟩ [0, 0, 0, 10, 10] initialState).2 =
      [none, none, none, none, none] := by with_unfolding_all decide

/-- C3 counterexample: the "no committed transition is a no-op" half of the
claim is FALSE.  Under the code's constants (window 20, persistence 2), after
twenty flat ticks the tick at spread 1 is a shock that forces
`currentRegime = DANGER`; on the next tick (spread 1 again) the DANGER
candidate persists and the commit branch fires even though DANGER is already
held: the emitted transition is `DANGER → DANGER` and `currentRegime` is
DANGER both immediately before and after the commit. -/
theorem c3_counterexample :
    (runRegime codeConfig (List.replicate 20 0 ++ [1]) initialState).1.regimeCurrent =
      Regime.DANGER ∧
    (runRegime codeConfig c3Spreads initialState).2.getLast? =
      some (some (RegimeEvent.transition Regime.DANGER Regime.DANGER)) ∧
    (runRegime codeConfig c3Spreads initialState).1.regimeCurrent =
      Regime.DANGER := by with_unfolding_all decide

/-- C5: the claim that warm-up ticks are safe no-ops is RIGHT as a reading of
the design but the code violates it: on a tick with a valid price and both
correlation values while fewer than `SPREAD_MA_WINDOW` spreads are collected,
`_update_regime` returns early leaving `spread_ma = None`, and
`_execute_trades` (called unconditionally afterwards) evaluates
`self.spread_ma - spread`, an uncaught `TypeError` (modelled as `none`).
Evaluated at the very first valid tick from the initial state. -/
theorem c5_warmup_tick_raises :
    onData codeConfig (some 1) (some 0) (some 0) 0 0 initialState = none := by with_unfolding_all decide

/-- C9 counterexample: the "bookkeeping counters still advance" half of the
claim is FALSE.  On a missing-COR tick from the initial state,
`bars_since_exit` stays 0, although the per-tick counter step applied to that
state would have advanced it to 1 (it is below `COOLDOWN_BARS`): the early
return at line 291 precedes STEP 3 (lines 325-328). -/
theorem c9_counterexample :
    (onData codeConfig (some 1) none (some 0) 5 0 initialState).map
        AlgoState.barsSinceExit = some 0 ∧
    (advanceCounters initialState).barsSinceExit = 1 := by with_unfolding_all decide

/-- C10: whenever the rolling stats are defined for the updated history (the
window is full) and the shock condition `|spread - previous spread| > 2.5·std`
holds, `_update_regime` forces `currentRegime = DANGER` on that same tick,
sets `consecutiveBarCount` to 1, leaves every other field (in particular
`previousRegime`) unchanged beyond the history/stats update, and emits the
shock event — no candidate selection, persistence check or commit happens. -/
theorem c10_shock_forces_danger (cfg : RegimeConfig) (spread : ℚ) (s : AlgoState)
    (ma stdSq : ℚ)
    (hstats : rollingStats cfg.window (postHist cfg spread s) = some (ma, stdSq))
    (hshock : shockCond spread (postHist cfg spread s) stdSq) :
    updateRegime cfg spread s =
      ({ s with spreadHistory := postHist cfg spread s,
                spreadStats := some (ma, stdSq),
                regimeCurrent := Regime.DANGER, regimeBarCount := 1 },
       some RegimeEvent.shock) := by
  unfold updateRegime
  rw [hstats]
  exact if_pos hshock

/-- C10 witness: window 4, history `[0, 0, -1]`, incoming spread `1`: the jump
`|1 - (-1)| = 2` exceeds `2.5·std` (squared: `4 > (25/4)·(1/2)`), so the tick
forces DANGER with counter 1 and emits the shock event. -/
theorem c10_witness :
    updateRegime ⟨4, 2⟩ 1 shockState =
      ({ shockState with spreadHistory := [0, 0, -1, 1],
                         spreadStats := some (0, 1 / 2),
                         regimeCurrent := Regime.DANGER, regimeBarCount := 1 },
       some RegimeEvent.shock) :=
  c10_shock_forces_danger ⟨4, 2⟩ 1 shockState 0 (1 / 2)
    (by with_unfolding_all decide) (by with_unfolding_all decide)

/-- C3 (amended): a regime transition is committed only when the updated
consecutive-bar counter has reached `persistenceBars` and the candidate
differs from `previousRegime` — but, persistence being at least 2, the
committed candidate always equals the regime held immediately before the
commit, so every committed transition is a no-op on `currentRegime` (it only
rewrites `previousRegime` and resets the counter). -/
theorem c3_commit_conditions_and_noop (cfg : RegimeConfig) (spread : ℚ)
    (s s' : AlgoState) (a b : Regime) (hp : 2 ≤ cfg.persistence)
    (h : updateRegime cfg spread s = (s', some (RegimeEvent.transition a b))) :
    a = s.regimeCurrent ∧ b = s.regimeCurrent ∧ b ≠ s.regimePrevious ∧
    cfg.persistence ≤ s.regimeBarCount + 1 ∧ s'.regimeCurrent = s.regimeCurrent := by
  unfold updateRegime at h
  split at h
  · simp at h
  · rename_i p ma stdSq heq
    split at h
    · simp at h
    · simp only [] at h
      split at h
      · rename_i hcand
        split at h
        · rename_i hcond
          rw [Prod.mk.injEq, Option.some.injEq, RegimeEvent.transition.injEq] at h
          obtain ⟨hs, ha, hb⟩ := h
          subst ha hb hs
          exact ⟨rfl, hcand, hcond.2, hcond.1, hcand⟩
        · simp at h
      · rename_i hcand
        split at h
        · rename_i hcond
          have h1 := hcond.1
          omega
        · simp at h

/-- C3 witness: the commit at the 22nd tick of `c3Spreads` satisfies the
amended claim's conclusions (the committed DANGER equals the DANGER already
held; only `previousRegime` changes). -/
theorem c3_witness :
    Regime.DANGER = c3PreState.regimeCurrent ∧
    Regime.DANGER = c3PreState.regimeCurrent ∧
    Regime.DANGER ≠ c3PreState.regimePrevious ∧
    codeConfig.persistence ≤ c3PreState.regimeBarCount + 1 ∧
    c3PostState.regimeCurrent = c3PreState.regimeCurrent :=
  c3_commit_conditions_and_noop codeConfig 1 c3PreState c3PostState
    Regime.DANGER Regime.DANGER (by with_unfolding_all decide)
    (by with_unfolding_all decide)

/-- C4: with persistence at least 2 (the code fixes it at 2), whenever the
persistence-commit branch of `_update_regime` fires its committed candidate
equals the regime already held, so `currentRegime` is changed only by the
shock-override path: any tick on which `currentRegime` changes is a shock
tick that forces DANGER. -/
theorem c4_current_changed_only_by_shock (cfg : RegimeConfig) (spread : ℚ)
    (s s' : AlgoState) (ev : Option RegimeEvent) (hp : 2 ≤ cfg.persistence)
    (h : updateRegime cfg spread s = (s', ev)) :
    (∀ a b, ev = some (RegimeEvent.transition a b) →
        b = a ∧ s'.regimeCurrent = s.regimeCurrent) ∧
    (s'.regimeCurrent ≠ s.regimeCurrent →
        ev = some RegimeEvent.shock ∧ s'.regimeCurrent = Regime.DANGER) := by
  unfold updateRegime at h
  split at h
  · rw [Prod.mk.injEq] at h
    obtain ⟨hs, hev⟩ := h
    subst hs hev
    exact ⟨fun a b hab => by simp at hab, fun hne => absurd rfl hne⟩
  · rename_i p ma stdSq heq
    split at h
    · rw [Prod.mk.injEq] at h
      obtain ⟨hs, hev⟩ := h
      subst hs hev
      exact ⟨fun a b hab => by simp at hab, fun _ => ⟨rfl, rfl⟩⟩
    · simp only [] at h
      split at h
      · rename_i hcand
        split at h
        · rename_i hcond
          rw [Prod.mk.injEq] at h
          obtain ⟨hs, hev⟩ := h
          subst hs hev
          refine ⟨fun a b hab => ?_, fun hne => absurd hcand hne⟩
          rw [Option.some.injEq, RegimeEvent.transition.injEq] at hab
          obtain ⟨ha, hb⟩ := hab
          subst ha hb
          exact ⟨hcand, hcand⟩
        · rw [Prod.mk.injEq] at h
          obtain ⟨hs, hev⟩ := h
          subst hs hev
          exact ⟨fun a b hab => by simp at hab, fun hne => absurd rfl hne⟩
      · rename_i hcand
        split at h
        · rename_i hcond
          have h1 := hcond.1
          omega
        · rw [Prod.mk.injEq] at h
          obtain ⟨hs, hev⟩ := h
          subst hs hev
          exact ⟨fun a b hab => by simp at hab, fun hne => absurd rfl hne⟩

/-- C4 witness: at the shock tick from `shockState` (window 4, spread 1) the
regime changes NEUTRAL → DANGER and the theorem certifies the change came
from the shock path. -/
theorem c4_witness :
    (∀ a b, (some RegimeEvent.shock : Option RegimeEvent) =
        some (RegimeEvent.transition a b) →
        b = a ∧
        ({ shockState with spreadHistory := [0, 0, -1, 1],
                           spreadStats := some (0, 1 / 2),
                           regimeCurrent := Regime.DANGER,
                           regimeBarCount := 1 } : AlgoState).regimeCurrent =
          shockState.regimeCurrent) ∧
    (({ shockState with spreadHistory := [0, 0, -1, 1],
                        spreadStats := some (0, 1 / 2),
                        regimeCurrent := Regime.DANGER,
                        regimeBarCount := 1 } : AlgoState).regimeCurrent ≠
        shockState.regimeCurrent →
      (some RegimeEvent.shock : Option RegimeEvent) = some RegimeEvent.shock ∧
      ({ shockState with spreadHistory := [0, 0, -1, 1],
                         spreadStats := some (0, 1 / 2),
                         regimeCurrent := Regime.DANGER,
                         regimeBarCount := 1 } : AlgoState).regimeCurrent =
        Regime.DANGER) :=
  c4_current_changed_only_by_shock ⟨4, 2⟩ 1 shockState
    { shockState with spreadHistory := [0, 0, -1, 1],
                      spreadStats := some (0, 1 / 2),
                      regimeCurrent := Regime.DANGER, regimeBarCount := 1 }
    (some RegimeEvent.shock) (by with_unfolding_all decide)
    (by with_unfolding_all decide)

/-- C6: on any tick with defined rolling stats, `_execute_trades` flips the
position CLOSED → OPEN only when, on that tick, the current regime is SAFE,
the signal-strength test `mean − spread > signalStdThreshold · std` holds
(squared form, with threshold 1), and the cooldown has elapsed
(`barsSinceExit ≥ COOLDOWN_BARS`); the entry event then carries target weight
`-POSITION_SIZE`.  If any condition fails no entry fires. -/
theorem c6_entry_requires_regime_signal_cooldown (s s' : AlgoState)
    (spread price : ℚ) (t : ℕ) (ma stdSq : ℚ) (ev : Option ExecEvent)
    (hstats : s.spreadStats = some (ma, stdSq)) (hclosed : s.isShort = false)
    (h : executeTrades spread price t s = some (s', ev))
    (hopen : s'.isShort = true) :
    s.regimeCurrent = Regime.SAFE ∧
    (0 < ma - spread ∧ stdSq < (ma - spread) ^ 2) ∧
    COOLDOWN_BARS ≤ s.barsSinceExit ∧
    ev = some (ExecEvent.enter (-POSITION_SIZE)) := by
  unfold executeTrades at h
  rw [hstats] at h
  simp only [] at h
  rw [if_pos hclosed] at h
  split at h
  · rename_i hcond
    rw [Option.some.injEq, Prod.mk.injEq] at h
    obtain ⟨hs, hev⟩ := h
    subst hs hev
    have hcool := hcond.2.2
    exact ⟨hcond.1, hcond.2.1, by omega, rfl⟩
  · split at h
    · rw [Option.some.injEq, Prod.mk.injEq] at h
      obtain ⟨hs, hev⟩ := h
      subst hs
      simp [hclosed] at hopen
    · rw [Option.some.injEq, Prod.mk.injEq] at h
      obtain ⟨hs, hev⟩ := h
      subst hs
      simp [hclosed] at hopen

/-- C6 witness: from `demoEntry` (SAFE, strong signal, cooldown elapsed) at
spread 5 and price 30 the entry fires and all three conditions are certified. -/
theorem c6_witness :
    demoEntry.regimeCurrent = Regime.SAFE ∧
    (0 < (10 : ℚ) - 5 ∧ (1 : ℚ) < ((10 : ℚ) - 5) ^ 2) ∧
    COOLDOWN_BARS ≤ demoEntry.barsSinceExit ∧
    (some (ExecEvent.enter (-POSITION_SIZE)) : Option ExecEvent) =
      some (ExecEvent.enter (-POSITION_SIZE)) :=
  c6_entry_requires_regime_signal_cooldown demoEntry demoEntryOut 5 30 0 10 1
    (some (ExecEvent.enter (-POSITION_SIZE))) rfl rfl
    (by with_unfolding_all decide) rfl

/-- C7: with a position open and stats defined, the exit conditions are
checked in fixed priority order and the first satisfied one wins: DANGER
yields REGIME_REVOKED regardless of the others; otherwise the mean-revert
condition (squared form of `|spread − mean| < 0.5·std`) yields
SIGNAL_NORMALIZED even if the stop condition also holds; otherwise the stop
condition (`price > entryPrice + atr · STOP_LOSS_MULT`, guarded by `atr > 0`)
yields STOP_HIT. -/
theorem c7_exit_priority (s : AlgoState) (spread price : ℚ) (t : ℕ)
    (ma stdSq : ℚ) (hstats : s.spreadStats = some (ma, stdSq))
    (hopen : s.isShort = true) :
    (s.regimeCurrent = Regime.DANGER →
      execEvent spread price t s =
        some (ExecEvent.exited ExitReason.REGIME_REVOKED)) ∧
    (s.regimeCurrent ≠ Regime.DANGER →
      (spread - ma) ^ 2 < stdSq * EXIT_MEAN_REVERT_THRESHOLD_SQ →
      execEvent spread price t s =
        some (ExecEvent.exited ExitReason.SIGNAL_NORMALIZED)) ∧
    (s.regimeCurrent ≠ Regime.DANGER →
      ¬ ((spread - ma) ^ 2 < stdSq * EXIT_MEAN_REVERT_THRESHOLD_SQ) →
      0 < s.vxxAtrEstimate →
      s.entryPrice + s.vxxAtrEstimate * STOP_LOSS_MULT < price →
      execEvent spread price t s =
        some (ExecEvent.exited ExitReason.STOP_HIT)) := by
  refine ⟨fun hd => ?_, fun hd hn => ?_, fun hd hn hatr hstop => ?_⟩
  · simp [execEvent, executeTrades, hstats, hopen, hd]
  · simp [execEvent, executeTrades, hstats, hopen, hd, hn]
  · simp [execEvent, executeTrades, hstats, hopen, hd, hn, hatr, hstop]

/-- C7 witness: from `demoOpen` at spread `1/2` and price `20` both the
mean-revert and the stop condition hold, and the recorded exit reason is
SIGNAL_NORMALIZED (the mean-revert branch wins). -/
theorem c7_witness :
    execEvent (1 / 2) 20 0 demoOpen =
      some (ExecEvent.exited ExitReason.SIGNAL_NORMALIZED) :=
  (c7_exit_priority demoOpen (1 / 2) 20 0 0 4 rfl rfl).2.1
    (by with_unfolding_all decide) (by with_unfolding_all decide)

/-- C8: the rolling statistics are undefined exactly while fewer than
`windowSize` samples are present; they depend only on the last `windowSize`
samples (any prefix beyond them is ignored); on the hand-computed series
`[1,2,3,4,5]` with window 5 the mean is 3 and the (squared) deviation is the
population variance 2 (sample variance would be 5/2), left unfloored since
positive; and on a constant window the zero deviation is floored to 0.01
(squared: `(1/100)^2`). -/
theorem c8_rolling_stats_spec :
    (∀ (w : ℕ) (l : List ℚ), (rollingStats w l).isNone ↔ l.length < w) ∧
    (∀ (w : ℕ) (junk l : List ℚ), l.length = w →
      rollingStats w (junk ++ l) = rollingStats w l) ∧
    rollingStats 5 [1, 2, 3, 4, 5] = some (3, 2) ∧
    rollingStats 3 [7, 7, 7] = some (7, (1 / 100) ^ 2) := by
  refine ⟨?_, ?_, ?_, ?_⟩
  · intro w l
    unfold rollingStats
    split
    · simp_all
    · simp_all
  · intro w junk l hl
    unfold rollingStats
    have hlen : (junk ++ l).length = junk.length + w := by simp [hl]
    rw [hlen, hl]
    have h1 : ¬(junk.length + w < w) := by omega
    have h2 : ¬(w < w) := by omega
    rw [if_neg h1, if_neg h2]
    have hdrop : junk.length + w - w = junk.length := by omega
    rw [hdrop, List.drop_left]
    have hzero : w - w = 0 := by omega
    rw [hzero, List.drop_zero]
  · with_unfolding_all decide
  · norm_num [rollingStats]

/-- C8 witness: the last-window invariance at a concrete input — a `[9, 9]`
prefix in the buffer does not change the stats of the window `[1,2,3,4,5]`. -/
theorem c8_witness :
    rollingStats 5 ([9, 9] ++ [1, 2, 3, 4, 5]) = rollingStats 5 [1, 2, 3, 4, 5] :=
  c8_rolling_stats_spec.2.1 5 [9, 9] [1, 2, 3, 4, 5] rfl

/-- C9 (amended): on a tick with a valid price but a missing correlation
value, `on_data` returns early having updated only the last-warned date: the
spread window, rolling stats, regime state, position state AND the
bookkeeping counters (`bars_since_entry`, `bars_since_exit`) are all
unchanged — the early return precedes the STEP 3 counter updates.  On a tick
with no price the state is entirely unchanged. -/
theorem c9_missing_data_frame (cfg : RegimeConfig) (s : AlgoState)
    (o1 o2 : Option ℚ) (price : ℚ) (d : ℤ) (t : ℕ)
    (hp : 0 < price) (hmiss : o1 = none ∨ o2 = none) :
    onData cfg (some price) o1 o2 d t s =
      some { s with lastMissingCorWarningDate := some d } ∧
    onData cfg none o1 o2 d t s = some s := by
  refine ⟨?_, rfl⟩
  unfold onData
  dsimp only
  rw [if_neg (not_le.mpr hp)]
  have hgoal : ∀ u : Option AlgoState,
      u = (if s.lastMissingCorWarningDate ≠ some d then
            some { s with lastMissingCorWarningDate := some d } else some s) →
      u = some { s with lastMissingCorWarningDate := some d } := by
    intro u hu
    rw [hu]
    split
    · rfl
    · rename_i hne
      rw [not_not] at hne
      rw [← hne]
  rcases hmiss with hm | hm
  · subst hm
    exact hgoal _ rfl
  · subst hm
    cases o1 <;> exact hgoal _ rfl

/-- C9 witness: the frame theorem applied at the initial state, price 1,
missing first correlation value, date 5. -/
theorem c9_witness :
    onData codeConfig (some 1) none (some 0) 5 0 initialState =
      some { initialState with lastMissingCorWarningDate := some 5 } ∧
    onData codeConfig none none (some 0) 5 0 initialState = some initialState :=
  c9_missing_data_frame codeConfig initialState none (some 0) 1 5 0
    (by with_unfolding_all decide) (Or.inl rfl)

end VolETPs
